import Mathlib

/-!
Shallow embedding of the Olist dashboard data-loading pipeline
(`dashboard.py`): the loader `carregar_dados`, the report reader
`carregar_relatorio`, the `st.cache_data` memoization, the downstream
`mes_dt` derivation, and the empty-table rendering guard.

Files are modelled as an association list from path to file data; a
DataFrame is a column-name list plus rows of cells; pandas datetime
coercion (`pd.to_datetime`, default `errors="raise"`) is modelled by an
executable ISO-format parser restricted to the pandas nanosecond
timestamp year range.
-/

deriving instance DecidableEq for Except

namespace Olist

/-- A calendar timestamp (what a successfully coerced date cell holds). -/
structure Timestamp where
  year : Nat
  month : Nat
  day : Nat
  hour : Nat
  minute : Nat
  second : Nat
deriving DecidableEq, Repr

/-- One cell of a DataFrame: missing (`NaN`/`NaT`), a raw string as produced
by `pd.read_csv`, or a coerced datetime. -/
inductive Cell where
  | na : Cell
  | str : String → Cell
  | dt : Timestamp → Cell
deriving DecidableEq, Repr

/-- A pandas DataFrame: ordered column names and rows of cells. -/
structure DataFrame where
  cols : List String
  rows : List (List Cell)
deriving DecidableEq, Repr

/-- `pd.DataFrame()` — the empty frame returned on the error paths. -/
def pd_DataFrame : DataFrame := ⟨[], []⟩

/-- `df.empty`: true when the frame has no rows or no columns. -/
def DataFrame.empty (df : DataFrame) : Bool :=
  df.rows.isEmpty || df.cols.isEmpty

/-- Index of the first column with the given name. -/
def colIdx : List String → String → Option Nat
  | [], _ => none
  | x :: xs, c => if x = c then some 0 else (colIdx xs c).map (· + 1)

/-- `df[c]` read: the column named `c`, if present. -/
def DataFrame.getCol? (df : DataFrame) (c : String) : Option (List Cell) :=
  match colIdx df.cols c with
  | none => none
  | some i => some (df.rows.map (fun r => r.getD i Cell.na))

/-- `df[c] = vals` write: overwrite the column when present, append a new
column otherwise. -/
def DataFrame.setCol (df : DataFrame) (c : String) (vals : List Cell) : DataFrame :=
  match colIdx df.cols c with
  | some i => ⟨df.cols, (df.rows.zip vals).map (fun rv => rv.1.set i rv.2)⟩
  | none => ⟨df.cols ++ [c], (df.rows.zip vals).map (fun rv => rv.1 ++ [rv.2])⟩

/-- Contents of a file on disk: a well-formed zip archive whose parsed CSV
content is the given table, malformed bytes that `pd.read_csv` rejects, or
plain text. -/
inductive FileData where
  | table : List String → List (List Cell) → FileData
  | malformed : String → FileData
  | text : String → FileData
deriving DecidableEq, Repr

/-- The filesystem visible to the script: paths mapped to file data. -/
structure FileSystem where
  files : List (String × FileData)
deriving DecidableEq, Repr

/-- Look a path up in the filesystem. -/
def FileSystem.lookup (fs : FileSystem) (p : String) : Option FileData :=
  match fs.files.find? (fun q => q.1 == p) with
  | some q => some q.2
  | none => none

/-- `os.path.exists`. -/
def os_path_exists (fs : FileSystem) (p : String) : Bool :=
  (fs.lookup p).isSome

/-- `CAMINHO_DADOS` after the GitHub path correction (line 26). -/
def CAMINHO_DADOS : String := "olist_lite.zip"

/-- `CAMINHO_RELATORIO` after the GitHub path correction (line 27). -/
def CAMINHO_RELATORIO : String := "relatorio_analise.txt"

/-- `pd.read_csv(path, compression="zip")`: succeeds on a well-formed
archive, raises on malformed bytes or a non-archive file. -/
def pd_read_csv (fs : FileSystem) (p : String) : Except String DataFrame :=
  match fs.lookup p with
  | some (FileData.table cols rows) => Except.ok ⟨cols, rows⟩
  | some (FileData.malformed d) => Except.error ("BadZipFile: " ++ d)
  | some (FileData.text _) => Except.error "BadZipFile: file is not a zip file"
  | none => Except.error ("FileNotFoundError: " ++ p)

/-- Numeric-range checks mirroring the pandas nanosecond timestamp bounds
(years 1678 to 2261) and calendar field ranges. -/
def validDate (y m d : Nat) : Bool :=
  1678 ≤ y && y ≤ 2261 && 1 ≤ m && m ≤ 12 && 1 ≤ d && d ≤ 31

/-- Range check for a time-of-day triple. -/
def validTime (h mi s : Nat) : Bool :=
  h ≤ 23 && mi ≤ 59 && s ≤ 59

/-- Split a character list on a separator. -/
def splitOnChar (sep : Char) : List Char → List (List Char)
  | [] => [[]]
  | c :: cs =>
    match splitOnChar sep cs, c == sep with
    | r, true => [] :: r
    | [], false => [[c]]
    | g :: gs, false => (c :: g) :: gs

/-- Is the character a decimal digit? -/
def isDigitChar (c : Char) : Bool :=
  48 ≤ c.toNat && c.toNat ≤ 57

/-- Read a nonempty all-digit character list as a number. -/
def digitsToNat? (cs : List Char) : Option Nat :=
  if cs.isEmpty then none
  else if cs.all isDigitChar then
    some (cs.foldl (fun a c => 10 * a + (c.toNat - 48)) 0)
  else none

/-- Parse a `YYYY-MM-DD` date part. -/
def parseDatePart (s : List Char) : Option (Nat × Nat × Nat) :=
  match splitOnChar '-' s with
  | [ys, ms, ds] =>
    match digitsToNat? ys, digitsToNat? ms, digitsToNat? ds with
    | some y, some m, some d => if validDate y m d then some (y, m, d) else none
    | _, _, _ => none
  | _ => none

/-- Parse a `HH:MM:SS` time part. -/
def parseTimePart (s : List Char) : Option (Nat × Nat × Nat) :=
  match splitOnChar ':' s with
  | [hs, ms, ss] =>
    match digitsToNat? hs, digitsToNat? ms, digitsToNat? ss with
    | some h, some mi, some se => if validTime h mi se then some (h, mi, se) else none
    | _, _, _ => none
  | _ => none

/-- Executable model of the datetime string formats `pd.to_datetime`
accepts: ISO date with optional time. -/
def parseTimestamp (s : String) : Option Timestamp :=
  match splitOnChar ' ' s.data with
  | [d] => (parseDatePart d).map (fun p => ⟨p.1, p.2.1, p.2.2, 0, 0, 0⟩)
  | [d, t] =>
    match parseDatePart d, parseTimePart t with
    | some p, some q => some ⟨p.1, p.2.1, p.2.2, q.1, q.2.1, q.2.2⟩
    | _, _ => none
  | _ => none

/-- `pd.to_datetime` on one cell with the default `errors="raise"`: a
missing value stays missing (`NaT`), a datetime stays, a string either
parses or raises. -/
def to_datetime_cell : Cell → Except String Cell
  | Cell.na => Except.ok Cell.na
  | Cell.dt t => Except.ok (Cell.dt t)
  | Cell.str s =>
    match parseTimestamp s with
    | some t => Except.ok (Cell.dt t)
    | none => Except.error ("ValueError: unknown datetime string format " ++ s)

/-- Apply a fallible cell transform to a whole column, raising on the
first failing cell (series-level raise semantics). -/
def mapE (f : Cell → Except String Cell) : List Cell → Except String (List Cell)
  | [] => Except.ok []
  | c :: cs =>
    match f c with
    | Except.error e => Except.error e
    | Except.ok c2 =>
      match mapE f cs with
      | Except.error e => Except.error e
      | Except.ok cs2 => Except.ok (c2 :: cs2)

/-- `df[col] = pd.to_datetime(df[col])` for one column: reading a missing
column raises `KeyError`, an unparseable value raises `ValueError`. -/
def coerce_col (df : DataFrame) (c : String) : Except String DataFrame :=
  match df.getCol? c with
  | none => Except.error ("KeyError: " ++ c)
  | some cells =>
    match mapE to_datetime_cell cells with
    | Except.error e => Except.error e
    | Except.ok cells2 => Except.ok (df.setCol c cells2)

/-- The `for col in cols_data` loop of `carregar_dados` (lines 40-42). -/
def coerce_cols : DataFrame → List String → Except String DataFrame
  | df, [] => Except.ok df
  | df, c :: cs =>
    match coerce_col df c with
    | Except.error e => Except.error e
    | Except.ok df2 => coerce_cols df2 cs

/-- `cols_data` (line 40). -/
def cols_data : List String := ["data_compra", "data_entrega", "data_estimada"]

/-- `carregar_dados` (lines 30-44, the reachable part: the function returns
at line 44, so the try/except block below it never runs). Result: the
`st.error` messages emitted, and either the returned DataFrame or the
uncaught exception. -/
def carregar_dados (fs : FileSystem) : List String × Except String DataFrame :=
  if !(os_path_exists fs CAMINHO_DADOS) then
    (["Arquivo " ++ CAMINHO_DADOS ++ " nao encontrado. Rode o script atividade.py primeiro.",
      "ERRO CRITICO: O arquivo " ++ CAMINHO_DADOS ++ " nao foi encontrado no GitHub."],
     Except.ok pd_DataFrame)
  else
    match pd_read_csv fs CAMINHO_DADOS with
    | Except.error e => ([], Except.error e)
    | Except.ok df =>
      match coerce_cols df cols_data with
      | Except.error e => ([], Except.error e)
      | Except.ok df2 => ([], Except.ok df2)

/-- Reading an existing file as text (`open(...).read()`). -/
def FileData.readText : FileData → String
  | FileData.text s => s
  | FileData.table _ _ => "conteudo tabular"
  | FileData.malformed d => d

/-- `carregar_relatorio` (lines 59-63, the reachable part: the second
return at line 64 is dead code): the file content when the path exists,
the sentinel otherwise; total, so no exception propagates. -/
def carregar_relatorio (fs : FileSystem) : String :=
  match fs.lookup CAMINHO_RELATORIO with
  | some fd => FileData.readText fd
  | none => "Relatório não encontrado."

/-- One call of the `st.cache_data`-decorated `carregar_dados`: the cache
is keyed by the function arguments alone — `carregar_dados` takes none, so
the key is constant and carries no file identity. A hit returns the cached
frame without touching the filesystem and without replaying `st.error`
messages; a miss computes and caches a successful return. -/
def st_cache_call (cache : Option DataFrame) (fs : FileSystem) :
    Option DataFrame × (List String × Except String DataFrame) :=
  match cache with
  | some df => (some df, ([], Except.ok df))
  | none =>
    match carregar_dados fs with
    | (msgs, Except.ok df) => (some df, (msgs, Except.ok df))
    | (msgs, Except.error e) => (none, (msgs, Except.error e))

/-- Decimal digit character. -/
def digitChar (n : Nat) : Char := Char.ofNat (48 + n)

/-- `str(period)` for a monthly period: zero-padded `YYYY-MM` (pandas
timestamps lie in years 1678-2261, so the year always has four digits). -/
def to_period_M_str (t : Timestamp) : String :=
  String.mk [digitChar (t.year / 1000 % 10), digitChar (t.year / 100 % 10),
             digitChar (t.year / 10 % 10), digitChar (t.year % 10), '-',
             digitChar (t.month / 10 % 10), digitChar (t.month % 10)]

/-- `.dt.to_period("M").astype(str)` on one cell: a datetime becomes its
`YYYY-MM` bucket, `NaT` prints as `"NaT"`, and the `.dt` accessor raises
on a non-datetime column. -/
def dt_to_period_cell : Cell → Except String Cell
  | Cell.dt t => Except.ok (Cell.str (to_period_M_str t))
  | Cell.na => Except.ok (Cell.str "NaT")
  | Cell.str _ => Except.error "AttributeError: Can only use .dt accessor with datetimelike values"

/-- `df["mes_dt"] = df["data_compra"].dt.to_period("M").astype(str)`
(line 124), executed by the monthly view inside the first tab, not by
`carregar_dados`. -/
def compute_mes_dt (df : DataFrame) : Except String DataFrame :=
  match df.getCol? "data_compra" with
  | none => Except.error "KeyError: data_compra"
  | some cells =>
    match mapE dt_to_period_cell cells with
    | Except.error e => Except.error e
    | Except.ok cells2 => Except.ok (df.setCol "mes_dt" cells2)

/-- Observable steps of the top-level script run. -/
inductive Effect where
  | errorBox : String → Effect
  | stopped : Effect
  | crashed : String → Effect
  | chart : String → Effect
deriving DecidableEq, Repr

/-- The chart calls executed by the four tabs once the guard has been
passed (each preceded by its groupby/metric computation). -/
def render_tabs (_df : DataFrame) : List Effect :=
  [Effect.chart "gauge_tempo_medio",
   Effect.chart "area_pedidos_mes",
   Effect.chart "choropleth_estados",
   Effect.chart "lollipop_top10",
   Effect.chart "pareto_categorias",
   Effect.chart "scatter_elasticidade",
   Effect.chart "sunburst_categorias",
   Effect.chart "hist_notas",
   Effect.chart "linha_atraso_satisfacao",
   Effect.chart "stack_qualidade",
   Effect.chart "scatter_clusters",
   Effect.chart "radar_clusters",
   Effect.chart "tabela_estatisticas"]

/-- The top-level script: load, then the `if df.empty: st.stop()` guard
(lines 72-74), then the tabs. An uncaught loader exception crashes the
script before the guard. -/
def main_script (fs : FileSystem) : List Effect :=
  match carregar_dados fs with
  | (msgs, Except.error e) => msgs.map Effect.errorBox ++ [Effect.crashed e]
  | (msgs, Except.ok df) =>
    msgs.map Effect.errorBox ++
      (if df.empty then [Effect.stopped] else render_tabs df)

/-! Concrete filesystems and frames used to instantiate the theorems. -/

/-- Source file whose single row has a missing purchase date. -/
def fsC1 : FileSystem :=
  ⟨[(CAMINHO_DADOS,
     FileData.table ["data_compra", "data_entrega", "data_estimada"]
       [[Cell.na, Cell.na, Cell.na]])]⟩

/-- The frame `carregar_dados` returns on `fsC1`. -/
def dfC1 : DataFrame :=
  ⟨["data_compra", "data_entrega", "data_estimada"], [[Cell.na, Cell.na, Cell.na]]⟩

/-- A present but malformed archive at the expected path. -/
def fsC2 : FileSystem :=
  ⟨[(CAMINHO_DADOS, FileData.malformed "corrupted central directory")]⟩

/-- A parseable file whose delivery-date column holds an unparseable value. -/
def fsC3 : FileSystem :=
  ⟨[(CAMINHO_DADOS,
     FileData.table ["data_compra", "data_entrega", "data_estimada"]
       [[Cell.str "2024-03-04 08:15:00", Cell.str "xx", Cell.na]])]⟩

/-- A parseable file whose estimated-delivery-date column holds an
unparseable value. -/
def fsC3w : FileSystem :=
  ⟨[(CAMINHO_DADOS,
     FileData.table ["data_compra", "data_entrega", "data_estimada"]
       [[Cell.na, Cell.na, Cell.str "xx"]])]⟩

/-- A well-formed one-row source file. -/
def fsC4 : FileSystem :=
  ⟨[(CAMINHO_DADOS,
     FileData.table ["data_compra", "data_entrega", "data_estimada"]
       [[Cell.na, Cell.na, Cell.na]])]⟩

/-- The frame `carregar_dados` returns on `fsC4`. -/
def dfC4 : DataFrame :=
  ⟨["data_compra", "data_entrega", "data_estimada"], [[Cell.na, Cell.na, Cell.na]]⟩

/-- A filesystem with no data file. -/
def fsC5 : FileSystem := ⟨[]⟩

/-- Initial content of the data file for the caching scenario. -/
def fsA6 : FileSystem :=
  ⟨[(CAMINHO_DADOS,
     FileData.table ["data_compra", "data_entrega", "data_estimada"]
       [[Cell.na, Cell.na, Cell.na]])]⟩

/-- Replacement content of the data file: one extra row. -/
def fsB6 : FileSystem :=
  ⟨[(CAMINHO_DADOS,
     FileData.table ["data_compra", "data_entrega", "data_estimada"]
       [[Cell.na, Cell.na, Cell.na], [Cell.na, Cell.na, Cell.na]])]⟩

/-- Frame loaded from the initial content. -/
def dfA6 : DataFrame :=
  ⟨["data_compra", "data_entrega", "data_estimada"], [[Cell.na, Cell.na, Cell.na]]⟩

/-- Frame a fresh load of the replacement content produces. -/
def dfB6 : DataFrame :=
  ⟨["data_compra", "data_entrega", "data_estimada"],
   [[Cell.na, Cell.na, Cell.na], [Cell.na, Cell.na, Cell.na]]⟩

/-- A one-row source file with a parseable purchase date. -/
def fsC7 : FileSystem :=
  ⟨[(CAMINHO_DADOS,
     FileData.table ["data_compra", "data_entrega", "data_estimada"]
       [[Cell.str "2024-03-04 08:15:00", Cell.na, Cell.na]])]⟩

/-- The loaded frame for the `mes_dt` scenario. -/
def dfC7 : DataFrame :=
  ⟨["data_compra", "data_entrega", "data_estimada"],
   [[Cell.dt ⟨2024, 3, 4, 8, 15, 0⟩, Cell.na, Cell.na]]⟩

/-- `dfC7` after the downstream `mes_dt` derivation. -/
def dfC7m : DataFrame :=
  ⟨["data_compra", "data_entrega", "data_estimada", "mes_dt"],
   [[Cell.dt ⟨2024, 3, 4, 8, 15, 0⟩, Cell.na, Cell.na, Cell.str "2024-03"]]⟩

/-- A filesystem holding the report file. -/
def fsC8 : FileSystem :=
  ⟨[( CAMINHO_RELATORIO, FileData.text "laudo tecnico")]⟩

/-- A filesystem without the report file. -/
def fsC8v : FileSystem := ⟨[]⟩

/-- A filesystem with no data file, for the rendering guard. -/
def fsC9 : FileSystem := ⟨[]⟩

/-- A parseable source file that lacks the `data_entrega` column. -/
def fsC10 : FileSystem :=
  ⟨[(CAMINHO_DADOS, FileData.table ["data_compra"] [[Cell.na]])]⟩

/-- The table of `fsC10` after coercing its purchase-date column. -/
def df1C10 : DataFrame := ⟨["data_compra"], [[Cell.na]]⟩

/-! Helper lemmas about columns, lists and fallible column maps. -/

lemma colIdx_of_not_mem {l : List String} {c : String} (h : c ∉ l) : colIdx l c = none := by
  induction l with
  | nil => rfl
  | cons x xs ih =>
    have hx : ¬ x = c := fun hxc => h (by simp [hxc])
    have hxs : c ∉ xs := fun hm => h (List.mem_cons_of_mem x hm)
    simp [colIdx, hx, ih hxs]

lemma mem_of_colIdx_some {l : List String} {c : String} {i : Nat}
    (h : colIdx l c = some i) : c ∈ l := by
  induction l generalizing i with
  | nil => simp [colIdx] at h
  | cons x xs ih =>
    by_cases hx : x = c
    · simp [hx]
    · simp only [colIdx, if_neg hx] at h
      cases hxs : colIdx xs c with
      | none => rw [hxs] at h; cases h
      | some j => exact List.mem_cons_of_mem x (ih hxs)

lemma colIdx_append_self {l : List String} {c : String} (h : c ∉ l) :
    colIdx (l ++ [c]) c = some l.length := by
  induction l with
  | nil => simp [colIdx]
  | cons x xs ih =>
    have hx : ¬ x = c := fun hxc => h (by simp [hxc])
    have hxs : c ∉ xs := fun hm => h (List.mem_cons_of_mem x hm)
    simp [colIdx, hx, ih hxs]

lemma get?_append_len {α : Type} (l : List α) (a : α) :
    (l ++ [a]).get? l.length = some a := by
  induction l with
  | nil => rfl
  | cons x xs ih => simp [ih]

lemma zip_get?_some {α β : Type} :
    ∀ (l1 : List α) (l2 : List β) (j : Nat) (a : α) (b : β),
      l1.get? j = some a → l2.get? j = some b →
      (l1.zip l2).get? j = some (a, b) := by
  intro l1
  induction l1 with
  | nil => intro l2 j a b h1 _; simp at h1
  | cons x xs ih =>
    intro l2 j a b h1 h2
    cases l2 with
    | nil => simp at h2
    | cons y ys =>
      cases j with
      | zero =>
        simp only [List.get?] at h1 h2
        cases h1; cases h2; rfl
      | succ n =>
        simp only [List.get?] at h1 h2 ⊢
        exact ih ys n a b h1 h2

lemma colIdx_get? : ∀ {l : List String} {c : String} {i : Nat},
    colIdx l c = some i → l.get? i = some c := by
  intro l
  induction l with
  | nil => intro c i h; cases h
  | cons x xs ih =>
    intro c i h
    by_cases hx : x = c
    · simp only [colIdx, if_pos hx] at h
      cases h
      simp [hx]
    · simp only [colIdx, if_neg hx] at h
      cases hj : colIdx xs c with
      | none => rw [hj] at h; cases h
      | some j =>
        rw [hj] at h
        simp only [Option.map_some'] at h
        cases h
        exact ih hj

lemma get?_set_ne {α : Type} :
    ∀ (l : List α) (i j : Nat) (v : α), i ≠ j →
      (l.set i v).get? j = l.get? j := by
  intro l
  induction l with
  | nil => intro i j v _; simp
  | cons x xs ih =>
    intro i j v hij
    cases i with
    | zero =>
      cases j with
      | zero => exact absurd rfl hij
      | succ n => rfl
    | succ m =>
      cases j with
      | zero => rfl
      | succ n => exact ih m n v (fun h => hij (by rw [h]))

lemma get?_of_mem {α : Type} {l : List α} {a : α} (h : a ∈ l) :
    ∃ j, l.get? j = some a := by
  induction l with
  | nil => cases h
  | cons x xs ih =>
    rcases List.mem_cons.mp h with h0 | hs
    · exact ⟨0, by simp [h0]⟩
    · rcases ih hs with ⟨j, hj⟩
      exact ⟨j + 1, hj⟩

lemma mapE_ok_length {f : Cell → Except String Cell} :
    ∀ {cs cs2 : List Cell}, mapE f cs = Except.ok cs2 → cs2.length = cs.length := by
  intro cs
  induction cs with
  | nil =>
    intro cs2 h
    simp only [mapE] at h
    cases h
    rfl
  | cons c cs ih =>
    intro cs2 h
    simp only [mapE] at h
    cases hf : f c with
    | error e => rw [hf] at h; cases h
    | ok c2 =>
      rw [hf] at h
      cases hm : mapE f cs with
      | error e => rw [hm] at h; cases h
      | ok cs2p =>
        rw [hm] at h
        cases h
        simp [ih hm]

lemma mapE_ok_get? {f : Cell → Except String Cell} :
    ∀ {cs cs2 : List Cell} (j : Nat) {c : Cell},
      mapE f cs = Except.ok cs2 → cs.get? j = some c →
      ∃ c2, f c = Except.ok c2 ∧ cs2.get? j = some c2 := by
  intro cs
  induction cs with
  | nil => intro cs2 j c _ hg; simp at hg
  | cons c0 cs ih =>
    intro cs2 j c h hg
    simp only [mapE] at h
    cases hf : f c0 with
    | error e => rw [hf] at h; cases h
    | ok c2 =>
      rw [hf] at h
      cases hm : mapE f cs with
      | error e => rw [hm] at h; cases h
      | ok cs2p =>
        rw [hm] at h
        cases h
        cases j with
        | zero =>
          simp only [List.get?] at hg
          cases hg
          exact ⟨c2, hf, rfl⟩
        | succ n =>
          simp only [List.get?] at hg ⊢
          exact ih n hm hg

lemma mapE_error_of_mem {f : Cell → Except String Cell} {cs : List Cell} {c : Cell}
    (hc : c ∈ cs) (hf : ∃ e, f c = Except.error e) :
    ∃ e, mapE f cs = Except.error e := by
  induction cs with
  | nil => cases hc
  | cons c0 cs ih =>
    rcases List.mem_cons.mp hc with hc0 | hcs
    · subst hc0
      rcases hf with ⟨e, he⟩
      exact ⟨e, by simp [mapE, he]⟩
    · cases hf0 : f c0 with
      | error e => exact ⟨e, by simp [mapE, hf0]⟩
      | ok c2 =>
        rcases ih hcs with ⟨e, he⟩
        exact ⟨e, by simp [mapE, hf0, he]⟩

lemma getCol?_some {df : DataFrame} {c : String} {cells : List Cell}
    (h : df.getCol? c = some cells) :
    ∃ i, colIdx df.cols c = some i ∧
      cells = df.rows.map (fun r => r.getD i Cell.na) := by
  unfold DataFrame.getCol? at h
  cases hci : colIdx df.cols c with
  | none => rw [hci] at h; cases h
  | some i =>
    rw [hci] at h
    cases h
    exact ⟨i, rfl, rfl⟩

lemma coerce_col_ok_shape {df df2 : DataFrame} {c : String}
    (h : coerce_col df c = Except.ok df2) :
    df2.cols = df.cols ∧ df2.rows.length = df.rows.length := by
  unfold coerce_col at h
  cases hg : df.getCol? c with
  | none => rw [hg] at h; cases h
  | some cells =>
    rw [hg] at h
    dsimp only at h
    cases hm : mapE to_datetime_cell cells with
    | error e => rw [hm] at h; cases h
    | ok cells2 =>
      rw [hm] at h
      cases h
      rcases getCol?_some hg with ⟨i, hci, hcells⟩
      have hlen : cells2.length = df.rows.length := by
        rw [mapE_ok_length hm, hcells, List.length_map]
      constructor
      · simp [DataFrame.setCol, hci]
      · simp [DataFrame.setCol, hci, List.length_zip, hlen]

lemma coerce_cols_ok_shape :
    ∀ {cs : List String} {df df2 : DataFrame},
      coerce_cols df cs = Except.ok df2 →
      df2.cols = df.cols ∧ df2.rows.length = df.rows.length := by
  intro cs
  induction cs with
  | nil =>
    intro df df2 h
    simp only [coerce_cols] at h
    cases h
    exact ⟨rfl, rfl⟩
  | cons c cs ih =>
    intro df df2 h
    simp only [coerce_cols] at h
    cases hc : coerce_col df c with
    | error e => rw [hc] at h; cases h
    | ok dfm =>
      rw [hc] at h
      rcases coerce_col_ok_shape hc with ⟨h1, h2⟩
      rcases ih h with ⟨h3, h4⟩
      exact ⟨h3.trans h1, h4.trans h2⟩

lemma coerce_cols_missing :
    ∀ (cs : List String) (df : DataFrame) (c : String),
      c ∈ cs → colIdx df.cols c = none →
      ∃ e, coerce_cols df cs = Except.error e := by
  intro cs
  induction cs with
  | nil => intro df c hc _; cases hc
  | cons c0 cs ih =>
    intro df c hc hnone
    cases hcc : coerce_col df c0 with
    | error e => exact ⟨e, by simp [coerce_cols, hcc]⟩
    | ok dfm =>
      rcases List.mem_cons.mp hc with hc0 | hcs
      · subst hc0
        exfalso
        unfold coerce_col at hcc
        cases hg : df.getCol? c with
        | none => rw [hg] at hcc; cases hcc
        | some cells =>
          rcases getCol?_some hg with ⟨i, hci, _⟩
          rw [hnone] at hci
          cases hci
      · have hcols : colIdx dfm.cols c = none := by
          rw [(coerce_col_ok_shape hcc).1]
          exact hnone
        rcases ih dfm c hcs hcols with ⟨e, he⟩
        exact ⟨e, by simp [coerce_cols, hcc, he]⟩

lemma coerce_col_keeps_column {df df1 : DataFrame} {c0 c : String} {cells : List Cell}
    (hne : c ≠ c0) (hcc : coerce_col df c0 = Except.ok df1)
    (hg : df.getCol? c = some cells) :
    ∃ cells1, df1.getCol? c = some cells1 ∧
      ∀ j cell, cells.get? j = some cell → cells1.get? j = some cell := by
  unfold coerce_col at hcc
  cases hg0 : df.getCol? c0 with
  | none => rw [hg0] at hcc; cases hcc
  | some cells0 =>
    rw [hg0] at hcc
    dsimp only at hcc
    cases hm : mapE to_datetime_cell cells0 with
    | error e => rw [hm] at hcc; cases hcc
    | ok cells2 =>
      rw [hm] at hcc
      cases hcc
      rcases getCol?_some hg with ⟨ic, hic, hcells⟩
      rcases getCol?_some hg0 with ⟨i0, hi0, hcells0⟩
      have hidne : i0 ≠ ic := by
        intro hEq
        have h1 := colIdx_get? hic
        have h2 := colIdx_get? hi0
        rw [hEq, h1] at h2
        injection h2 with h3
        exact hne h3
      have hlen2 : cells2.length = df.rows.length := by
        rw [mapE_ok_length hm, hcells0, List.length_map]
      have hsc : df.setCol c0 cells2 =
          ⟨df.cols, (df.rows.zip cells2).map (fun rv => rv.1.set i0 rv.2)⟩ := by
        simp [DataFrame.setCol, hi0]
      refine ⟨((df.rows.zip cells2).map (fun rv => rv.1.set i0 rv.2)).map
          (fun r => r.getD ic Cell.na), ?_, ?_⟩
      · rw [hsc]
        simp [DataFrame.getCol?, hic]
      · intro j cell hj
        rw [hcells] at hj
        cases hr : df.rows.get? j with
        | none => rw [List.get?_map, hr] at hj; cases hj
        | some r =>
          rw [List.get?_map, hr] at hj
          have hjlt : j < df.rows.length := by
            by_contra hge
            rw [List.get?_eq_none.mpr (Nat.le_of_not_lt hge)] at hr
            cases hr
          have hv : ∃ v, cells2.get? j = some v := by
            cases hv2 : cells2.get? j with
            | none =>
              exfalso
              rw [List.get?_eq_none, hlen2] at hv2
              exact Nat.not_lt.mpr hv2 hjlt
            | some v => exact ⟨v, rfl⟩
          rcases hv with ⟨v, hv⟩
          have hz := zip_get?_some _ _ j _ _ hr hv
          rw [List.get?_map, List.get?_map, hz]
          have hgd : (r.set i0 v).getD ic Cell.na = r.getD ic Cell.na := by
            have h1 := get?_set_ne r i0 ic v hidne
            simp only [List.getD]
            rw [h1]
          simp only [Option.map_some']
          rw [hgd]
          exact hj

lemma coerce_cols_bad_cell :
    ∀ (cs : List String) (df : DataFrame) (c : String) (cells : List Cell),
      cs.Nodup → c ∈ cs → df.getCol? c = some cells →
      (∃ cell ∈ cells, ∃ e, to_datetime_cell cell = Except.error e) →
      ∃ e, coerce_cols df cs = Except.error e := by
  intro cs
  induction cs with
  | nil => intro df c cells _ hc _ _; cases hc
  | cons c0 rest ih =>
    intro df c cells hnd hc hg hbad
    cases hcc : coerce_col df c0 with
    | error e => exact ⟨e, by simp [coerce_cols, hcc]⟩
    | ok df1 =>
      rcases List.mem_cons.mp hc with hc0 | hcrest
      · exfalso
        subst hc0
        unfold coerce_col at hcc
        rw [hg] at hcc
        dsimp only at hcc
        rcases hbad with ⟨cell, hmem, he⟩
        rcases mapE_error_of_mem hmem he with ⟨e, hme⟩
        rw [hme] at hcc
        cases hcc
      · have hne : c ≠ c0 := by
          intro hEq
          rw [hEq] at hcrest
          exact (List.nodup_cons.mp hnd).1 hcrest
        rcases coerce_col_keeps_column hne hcc hg with ⟨cells1, hg1, hpt⟩
        have hbad1 : ∃ cell ∈ cells1, ∃ e, to_datetime_cell cell = Except.error e := by
          rcases hbad with ⟨cell, hmem, he⟩
          rcases get?_of_mem hmem with ⟨j, hj⟩
          exact ⟨cell, List.get?_mem (hpt j cell hj), he⟩
        rcases ih df1 c cells1 (List.nodup_cons.mp hnd).2 hcrest hg1 hbad1 with ⟨e, he⟩
        exact ⟨e, by simp [coerce_cols, hcc, he]⟩

lemma carregar_dados_table {fs : FileSystem} {cols : List String} {rows : List (List Cell)}
    (h : fs.lookup CAMINHO_DADOS = some (FileData.table cols rows)) :
    carregar_dados fs = ([], coerce_cols ⟨cols, rows⟩ cols_data) := by
  have hex : os_path_exists fs CAMINHO_DADOS = true := by
    simp [os_path_exists, h]
  simp only [carregar_dados, hex, Bool.not_true, Bool.false_eq_true, if_false,
    pd_read_csv, h]
  cases hc : coerce_cols ⟨cols, rows⟩ cols_data <;> simp

/-! Claim theorems. -/

/-- Claim C1, counterexample: on a parseable source file whose row has a
missing purchase date, `carregar_dados` returns a non-empty table that
contains a row with a null `data_compra` — the row is retained, not
dropped. -/
theorem C1_counterexample :
    (carregar_dados fsC1).2 = Except.ok dfC1 ∧ dfC1.empty = false ∧
      dfC1.getCol? "data_compra" = some [Cell.na] := by decide

/-- Claim C1, amended: `carregar_dados` drops no rows at all — whenever it
returns a table for a parseable source file, the table has exactly as many
rows as the source. -/
theorem C1_no_rows_dropped (fs : FileSystem) (cols : List String)
    (rows : List (List Cell)) (df : DataFrame)
    (h : fs.lookup CAMINHO_DADOS = some (FileData.table cols rows))
    (hok : (carregar_dados fs).2 = Except.ok df) :
    df.rows.length = rows.length := by
  rw [carregar_dados_table h] at hok
  exact (coerce_cols_ok_shape hok).2

/-- Witness for `C1_no_rows_dropped` at the concrete one-row file. -/
theorem C1_no_rows_dropped_witness :
    dfC1.rows.length = [[Cell.na, Cell.na, Cell.na]].length :=
  C1_no_rows_dropped fsC1 ["data_compra", "data_entrega", "data_estimada"]
    [[Cell.na, Cell.na, Cell.na]] dfC1 (by decide) (by decide)

/-- Claim C2: with a present but malformed archive, the `pd.read_csv`
failure escapes `carregar_dados` as an uncaught exception with no
diagnostic message — the catching code (lines 45-56) sits after the
`return` at line 44 and never runs. -/
theorem C2_exception_escapes :
    carregar_dados fsC2 =
      ([], Except.error "BadZipFile: corrupted central directory") := by decide

/-- Claim C3, counterexample: an unparseable value in the non-purchase
date column `data_entrega` aborts the whole load with an exception instead
of becoming a null cell in a retained row. -/
theorem C3_counterexample :
    (carregar_dados fsC3).2 =
      Except.error "ValueError: unknown datetime string format xx" := by decide

/-- Claim C3, amended: datetime coercion is strict — a cell of any of the
three date columns (`data_compra`, `data_entrega`, `data_estimada`) on
which `pd.to_datetime` fails aborts the whole load with an exception
instead of becoming a null marker in a retained row; only an
already-missing value passes through as a null. -/
theorem C3_strict_coercion (fs : FileSystem) (cols : List String)
    (rows : List (List Cell)) (c : String) (cells : List Cell)
    (h : fs.lookup CAMINHO_DADOS = some (FileData.table cols rows))
    (hc : c ∈ cols_data)
    (hg : DataFrame.getCol? ⟨cols, rows⟩ c = some cells)
    (hbad : ∃ cell ∈ cells, ∃ e, to_datetime_cell cell = Except.error e) :
    (∃ e, (carregar_dados fs).2 = Except.error e) ∧
      to_datetime_cell Cell.na = Except.ok Cell.na := by
  refine ⟨?_, rfl⟩
  rw [carregar_dados_table h]
  rcases coerce_cols_bad_cell cols_data ⟨cols, rows⟩ c cells
    (by decide) hc hg hbad with ⟨e, he⟩
  exact ⟨e, he⟩

/-- Witness for `C3_strict_coercion` at a file with an unparseable
estimated-delivery date. -/
theorem C3_strict_coercion_witness :
    (∃ e, (carregar_dados fsC3w).2 = Except.error e) ∧
      to_datetime_cell Cell.na = Except.ok Cell.na :=
  C3_strict_coercion fsC3w ["data_compra", "data_entrega", "data_estimada"]
    [[Cell.na, Cell.na, Cell.str "xx"]] "data_estimada" [Cell.str "xx"]
    (by decide) (by decide) (by decide)
    ⟨Cell.str "xx", by decide,
     "ValueError: unknown datetime string format xx", by decide⟩

/-- Claim C4, counterexample: on a parseable source file the returned
non-empty table has no `hora_compra` and no `dia_semana_pt` column — the
derived columns are never created. -/
theorem C4_counterexample :
    (carregar_dados fsC4).2 = Except.ok dfC4 ∧ dfC4.empty = false ∧
      "hora_compra" ∉ dfC4.cols ∧ "dia_semana_pt" ∉ dfC4.cols := by decide

/-- Claim C4, amended: `carregar_dados` adds no derived columns — the
columns of the returned table are exactly the columns of the source file,
so `hora_compra` and `dia_semana_pt` exist only if the source already had
them. -/
theorem C4_no_derived_columns (fs : FileSystem) (cols : List String)
    (rows : List (List Cell)) (df : DataFrame)
    (h : fs.lookup CAMINHO_DADOS = some (FileData.table cols rows))
    (hok : (carregar_dados fs).2 = Except.ok df) :
    df.cols = cols := by
  rw [carregar_dados_table h] at hok
  exact (coerce_cols_ok_shape hok).1

/-- Witness for `C4_no_derived_columns` at the concrete one-row file. -/
theorem C4_no_derived_columns_witness :
    dfC4.cols = ["data_compra", "data_entrega", "data_estimada"] :=
  C4_no_derived_columns fsC4 ["data_compra", "data_entrega", "data_estimada"]
    [[Cell.na, Cell.na, Cell.na]] dfC4 (by decide) (by decide)

/-- Claim C5: when the data file does not exist, `carregar_dados` emits a
non-empty list of diagnostic messages and returns the empty frame without
raising. -/
theorem C5_missing_file (fs : FileSystem)
    (h : os_path_exists fs CAMINHO_DADOS = false) :
    (carregar_dados fs).1 ≠ [] ∧
      (carregar_dados fs).2 = Except.ok pd_DataFrame ∧
      pd_DataFrame.empty = true := by
  simp [carregar_dados, h, pd_DataFrame, DataFrame.empty]

/-- Witness for `C5_missing_file` at the empty filesystem. -/
theorem C5_missing_file_witness :
    (carregar_dados fsC5).1 ≠ [] ∧
      (carregar_dados fsC5).2 = Except.ok pd_DataFrame ∧
      pd_DataFrame.empty = true :=
  C5_missing_file fsC5 (by decide)

/-- Claim C6, counterexample: the memoization key of the cached loader
carries no file identity — after the data file content is replaced, a
reload returns the stale cached table, which differs from what a fresh
load of the new content produces. -/
theorem C6_stale_cache :
    st_cache_call none fsA6 = (some dfA6, ([], Except.ok dfA6)) ∧
      st_cache_call (st_cache_call none fsA6).1 fsB6 =
        (some dfA6, ([], Except.ok dfA6)) ∧
      (carregar_dados fsB6).2 = Except.ok dfB6 ∧ dfA6 ≠ dfB6 := by decide

/-- Claim C6, amended: half (a) of the caching contract holds — with a
populated cache the call returns the cached frame for any filesystem
state, so the file is neither re-read nor re-parsed; half (b) fails as
shown by the stale-cache counterexample. -/
theorem C6_cache_hit_no_reread (df : DataFrame) (fs : FileSystem) :
    st_cache_call (some df) fs = (some df, ([], Except.ok df)) := rfl

/-- Claim C7: the load step never creates a `mes_dt` column (it is left to
the downstream monthly view), and the downstream derivation maps each row
whose `data_compra` is a timestamp to the string of a four-digit year, a
dash and a two-digit month whose digits reconstruct exactly the year and
month of that timestamp. -/
theorem C7_mes_dt_lazy :
    (∀ (fs : FileSystem) (cols : List String) (rows : List (List Cell))
        (df : DataFrame),
        fs.lookup CAMINHO_DADOS = some (FileData.table cols rows) →
        (carregar_dados fs).2 = Except.ok df →
        "mes_dt" ∉ cols → "mes_dt" ∉ df.cols) ∧
    (∀ (df df2 : DataFrame) (cells : List Cell) (j : Nat) (t : Timestamp),
        compute_mes_dt df = Except.ok df2 →
        (∀ r ∈ df.rows, r.length = df.cols.length) →
        "mes_dt" ∉ df.cols →
        df.getCol? "data_compra" = some cells →
        cells.get? j = some (Cell.dt t) →
        t.year ≤ 9999 → t.month ≤ 12 →
        ∃ mcells, df2.getCol? "mes_dt" = some mcells ∧
          ∃ d3 d2 d1 d0 m1 m0 : Nat,
            d3 < 10 ∧ d2 < 10 ∧ d1 < 10 ∧ d0 < 10 ∧ m1 < 10 ∧ m0 < 10 ∧
            1000 * d3 + 100 * d2 + 10 * d1 + d0 = t.year ∧
            10 * m1 + m0 = t.month ∧
            mcells.get? j = some (Cell.str (String.mk
              [digitChar d3, digitChar d2, digitChar d1, digitChar d0, '-',
               digitChar m1, digitChar m0]))) := by
  constructor
  · intro fs cols rows df h hok hmem
    rw [carregar_dados_table h] at hok
    rw [(coerce_cols_ok_shape hok).1]
    exact hmem
  · intro df df2 cells j t hcm hwf hnot hg hcell hy hmo
    unfold compute_mes_dt at hcm
    rw [hg] at hcm
    dsimp only at hcm
    cases hmE : mapE dt_to_period_cell cells with
    | error e => rw [hmE] at hcm; cases hcm
    | ok cells2 =>
      rw [hmE] at hcm
      cases hcm
      have hci : colIdx df.cols "mes_dt" = none := colIdx_of_not_mem hnot
      have hciapp : colIdx (df.cols ++ ["mes_dt"]) "mes_dt" = some df.cols.length :=
        colIdx_append_self hnot
      rcases mapE_ok_get? j hmE hcell with ⟨c2, hf, hc2⟩
      have hc2eq : c2 = Cell.str (to_period_M_str t) := by
        simp [dt_to_period_cell] at hf
        exact hf.symm
      rcases getCol?_some hg with ⟨i, hidx, hcells⟩
      have hrow : ∃ r, df.rows.get? j = some r := by
        rw [hcells] at hcell
        cases hr : df.rows.get? j with
        | none => rw [List.get?_map, hr] at hcell; cases hcell
        | some r => exact ⟨r, rfl⟩
      rcases hrow with ⟨r, hr⟩
      have hrlen : r.length = df.cols.length := hwf r (List.get?_mem hr)
      have hz : (df.rows.zip cells2).get? j = some (r, c2) :=
        zip_get?_some _ _ j _ _ hr hc2
      refine ⟨((df.rows.zip cells2).map (fun rv => rv.1 ++ [rv.2])).map
          (fun rr => rr.getD df.cols.length Cell.na), ?_, ?_⟩
      · show (df.setCol "mes_dt" cells2).getCol? "mes_dt" = _
        simp [DataFrame.setCol, hci, DataFrame.getCol?, hciapp]
      · refine ⟨t.year / 1000 % 10, t.year / 100 % 10, t.year / 10 % 10,
          t.year % 10, t.month / 10 % 10, t.month % 10,
          Nat.mod_lt _ (by norm_num), Nat.mod_lt _ (by norm_num),
          Nat.mod_lt _ (by norm_num), Nat.mod_lt _ (by norm_num),
          Nat.mod_lt _ (by norm_num), Nat.mod_lt _ (by norm_num),
          by omega, by omega, ?_⟩
        rw [List.get?_map, List.get?_map, hz]
        have hgd : (r ++ [c2]).getD df.cols.length Cell.na = c2 := by
          rw [← hrlen]
          simp [List.getD, get?_append_len]
        simp only [Option.map_some']
        rw [hgd, hc2eq]
        rfl

/-- Witness for `C7_mes_dt_lazy`: the load of a one-column file creates no
`mes_dt`, and the downstream derivation on the loaded frame produces the
`2024-03` bucket for the 2024-03-04 purchase. -/
theorem C7_mes_dt_lazy_witness :
    ("mes_dt" ∉ dfC7.cols) ∧
      (∃ mcells, dfC7m.getCol? "mes_dt" = some mcells ∧
        ∃ d3 d2 d1 d0 m1 m0 : Nat,
          d3 < 10 ∧ d2 < 10 ∧ d1 < 10 ∧ d0 < 10 ∧ m1 < 10 ∧ m0 < 10 ∧
          1000 * d3 + 100 * d2 + 10 * d1 + d0 =
            (Timestamp.mk 2024 3 4 8 15 0).year ∧
          10 * m1 + m0 = (Timestamp.mk 2024 3 4 8 15 0).month ∧
          mcells.get? 0 = some (Cell.str (String.mk
            [digitChar d3, digitChar d2, digitChar d1, digitChar d0, '-',
             digitChar m1, digitChar m0]))) :=
  ⟨C7_mes_dt_lazy.1 fsC7 ["data_compra", "data_entrega", "data_estimada"]
      [[Cell.str "2024-03-04 08:15:00", Cell.na, Cell.na]]
      dfC7 (by decide) (by decide) (by decide),
   C7_mes_dt_lazy.2 dfC7 dfC7m [Cell.dt ⟨2024, 3, 4, 8, 15, 0⟩] 0
      ⟨2024, 3, 4, 8, 15, 0⟩ (by decide) (by decide) (by decide) (by decide)
      (by decide) (by decide) (by decide)⟩

/-- Claim C8: `carregar_relatorio` returns the text content of the report
file when it exists and the fixed sentinel when it is absent; the function
is total, so no exception propagates. -/
theorem C8_relatorio (fs : FileSystem) (s : String) :
    (fs.lookup CAMINHO_RELATORIO = none →
      carregar_relatorio fs = "Relatório não encontrado.") ∧
    (fs.lookup CAMINHO_RELATORIO = some (FileData.text s) →
      carregar_relatorio fs = s) := by
  constructor
  · intro h
    simp [carregar_relatorio, h]
  · intro h
    simp [carregar_relatorio, h, FileData.readText]

/-- Witness for `C8_relatorio`: the report text when present, the sentinel
when absent. -/
theorem C8_relatorio_witness :
    carregar_relatorio fsC8 = "laudo tecnico" ∧
      carregar_relatorio fsC8v = "Relatório não encontrado." :=
  ⟨(C8_relatorio fsC8 "laudo tecnico").2 (by decide),
   (C8_relatorio fsC8v "").1 (by decide)⟩

/-- Claim C9: when `carregar_dados` returns an empty table, the script
run is the diagnostic messages followed by the stop — no chart call of the
tabs is ever executed. -/
theorem C9_fail_closed (fs : FileSystem) (msgs : List String) (df : DataFrame)
    (h : carregar_dados fs = (msgs, Except.ok df)) (he : df.empty = true) :
    main_script fs = msgs.map Effect.errorBox ++ [Effect.stopped] ∧
      ∀ e ∈ main_script fs, ∀ s, e ≠ Effect.chart s := by
  have hm : main_script fs = msgs.map Effect.errorBox ++ [Effect.stopped] := by
    unfold main_script
    rw [h]
    simp [he]
  refine ⟨hm, ?_⟩
  intro e hmem s
  rw [hm] at hmem
  rcases List.mem_append.mp hmem with h1 | h2
  · rcases List.mem_map.mp h1 with ⟨m, _, hem⟩
    rw [← hem]
    intro hcontra
    cases hcontra
  · have h2e : e = Effect.stopped := by simpa using h2
    rw [h2e]
    intro hcontra
    cases hcontra

/-- Witness for `C9_fail_closed` at a filesystem with no data file. -/
theorem C9_fail_closed_witness :
    main_script fsC9 =
      (carregar_dados fsC9).1.map Effect.errorBox ++ [Effect.stopped] ∧
      ∀ e ∈ main_script fsC9, ∀ s, e ≠ Effect.chart s :=
  C9_fail_closed fsC9 (carregar_dados fsC9).1 pd_DataFrame
    (by decide) (by decide)

/-- Claim C10: when the source file parses but lacks the `data_entrega`
or the `data_estimada` column, `carregar_dados` raises instead of
returning a table; in particular, when `data_entrega` is absent and the
purchase-date coercion succeeds, the uncaught exception is exactly the
`KeyError` for `data_entrega`. -/
theorem C10_missing_column_raises (fs : FileSystem) (cols : List String)
    (rows : List (List Cell))
    (h : fs.lookup CAMINHO_DADOS = some (FileData.table cols rows))
    (hm : "data_entrega" ∉ cols ∨ "data_estimada" ∉ cols) :
    (∃ e, (carregar_dados fs).2 = Except.error e) ∧
      (∀ df1, "data_entrega" ∉ cols →
        coerce_col ⟨cols, rows⟩ "data_compra" = Except.ok df1 →
        (carregar_dados fs).2 =
          Except.error ("KeyError: " ++ "data_entrega")) := by
  constructor
  · rw [carregar_dados_table h]
    rcases hm with hme | hms
    · rcases coerce_cols_missing cols_data ⟨cols, rows⟩ "data_entrega"
        (by decide) (colIdx_of_not_mem hme) with ⟨e, he⟩
      exact ⟨e, he⟩
    · rcases coerce_cols_missing cols_data ⟨cols, rows⟩ "data_estimada"
        (by decide) (colIdx_of_not_mem hms) with ⟨e, he⟩
      exact ⟨e, he⟩
  · intro df1 hme hcc
    rw [carregar_dados_table h]
    show coerce_cols ⟨cols, rows⟩ cols_data =
      Except.error ("KeyError: " ++ "data_entrega")
    have h1 : coerce_cols ⟨cols, rows⟩ cols_data =
        coerce_cols df1 ["data_entrega", "data_estimada"] := by
      simp [cols_data, coerce_cols, hcc]
    rw [h1]
    have hnone : colIdx df1.cols "data_entrega" = none := by
      rw [(coerce_col_ok_shape hcc).1]
      exact colIdx_of_not_mem hme
    have hgc : df1.getCol? "data_entrega" = none := by
      simp [DataFrame.getCol?, hnone]
    simp [coerce_cols, coerce_col, hgc]

/-- Witness for `C10_missing_column_raises` at a file holding only the
purchase-date column. -/
theorem C10_missing_column_raises_witness :
    (∃ e, (carregar_dados fsC10).2 = Except.error e) ∧
      (carregar_dados fsC10).2 =
        Except.error ("KeyError: " ++ "data_entrega") := by
  have h := C10_missing_column_raises fsC10 ["data_compra"] [[Cell.na]]
    (by decide) (Or.inl (by decide))
  exact ⟨h.1, h.2 df1C10 (by decide) (by decide)⟩

end Olist
